import Mathlib

/-!
Verification of the SYEP data-exploration pipeline.

The development shallowly embeds the two source files of the repository:

* `syep_api.py` — the `SYEP_API` class: whitespace normalization
  (`prepare_data`), the eight distinct-value getters, the conjunctive
  `filter_data` operation, and `create_plot` (countplot, stacked bar plot,
  heatmap; the latter two aggregate through `pandas.crosstab`).
* `syep_explorer.py` — the two reactive callbacks `generate_table` and
  `generate_plot` built on top of the API.

A Dataset is a list of rows; a row is an association list from column names
to cell values.  A cell is a string, an integer, or a missing entry
(pandas `NaN`).  A column absent from a row reads as missing.  External
collaborators are modelled by explicit parameters: the `plt.colormaps()`
allow-list and the tick locations reported by the matplotlib axis.
-/

namespace SYEP

/-- A cell of the Dataset: a string, an integer, or a missing entry
(pandas `NaN`). -/
inductive Value where
  | str (s : String)
  | int (n : Int)
  | missing
deriving DecidableEq

/-- A row: an association list from column names to cell values. -/
abbrev Row := List (String × Value)

/-- The Dataset: an ordered list of rows. -/
abbrev Dataset := List Row

/-- Reading a named cell out of a row (column access on one row).
A column absent from the row is modelled as a missing entry. -/
def getVal (r : Row) (c : String) : Value :=
  match r.find? (fun cv => cv.1 == c) with
  | some cv => cv.2
  | none => Value.missing

/-- Whitespace test of Python `str.strip`. -/
def isWS (c : Char) : Bool := c.isWhitespace

/-- Dropping leading whitespace characters. -/
def ltrim (l : List Char) : List Char := l.dropWhile isWS

/-- Dropping trailing whitespace characters. -/
def rtrim (l : List Char) : List Char := l.rdropWhile isWS

/-- Python `str.strip`: remove leading and trailing whitespace. -/
def pyStrip (s : String) : String := String.mk (rtrim (ltrim s.data))

/-- One cell of the normalization pass of `prepare_data`:
the lambda `x.strip() if isinstance(x, str) else x`. -/
def normalizeValue : Value → Value
  | Value.str s => Value.str (pyStrip s)
  | v => v

/-- `SYEP_API.prepare_data`: elementwise whitespace trimming over the
whole Dataset (`self.syep.map(lambda x: x.strip() if isinstance(x, str) else x)`). -/
def prepare_data (d : Dataset) : Dataset :=
  d.map (fun r => r.map (fun cv => (cv.1, normalizeValue cv.2)))

/-- First-occurrence deduplication, as `pandas.Series.unique`:
keep the elements of the first argument that are not in the seen-set. -/
def uniqueAux {α : Type} [DecidableEq α] : List α → List α → List α
  | [], _ => []
  | x :: xs, seen =>
      if x ∈ seen then uniqueAux xs seen else x :: uniqueAux xs (x :: seen)

/-- `pandas.Series.unique`: deduplicate keeping first occurrences in order. -/
def uniqueFirst {α : Type} [DecidableEq α] (l : List α) : List α := uniqueAux l []

/-- Python `str` coercion of a cell (`astype(str)` on a series element). -/
def pyStr : Value → String
  | Value.str s => s
  | Value.int n => toString n
  | Value.missing => "nan"

/-- The values of one column in row order (`self.syep[col]`). -/
def columnVals (d : Dataset) (c : String) : List Value := d.map (fun r => getVal r c)

/-- Shared body of the eight distinct-value getters:
`sorted(self.syep[col].dropna().astype(str).unique())`. -/
def getUniqueCol (d : Dataset) (c : String) : List String :=
  List.insertionSort (· ≤ ·)
    (uniqueFirst (((columnVals d c).filter (fun v => !(v == Value.missing))).map pyStr))

/-- `SYEP_API.get_unique_genders`. -/
def get_unique_genders (d : Dataset) : List String := getUniqueCol d "gender"

/-- `SYEP_API.get_unique_races`. -/
def get_unique_races (d : Dataset) : List String := getUniqueCol d "race"

/-- `SYEP_API.get_unique_second_languages`. -/
def get_unique_second_languages (d : Dataset) : List String :=
  getUniqueCol d "second_language_spoken_at_home"

/-- `SYEP_API.get_unique_adult_live_with`. -/
def get_unique_adult_live_with (d : Dataset) : List String := getUniqueCol d "adult_live_with"

/-- `SYEP_API.get_unique_job_formats`. -/
def get_unique_job_formats (d : Dataset) : List String := getUniqueCol d "job_format"

/-- `SYEP_API.get_unique_programs`. -/
def get_unique_programs (d : Dataset) : List String := getUniqueCol d "program"

/-- `SYEP_API.get_unique_hours_worked`. -/
def get_unique_hours_worked (d : Dataset) : List String :=
  getUniqueCol d "hours_worked_per_week"

/-- `SYEP_API.get_unique_daily_work`. -/
def get_unique_daily_work (d : Dataset) : List String := getUniqueCol d "daily_work_type"

/-- Python truthiness of a cell value (the guards `if gender:`):
empty strings and zero are falsy; `NaN` is truthy. -/
def truthy : Value → Bool
  | Value.str s => !s.isEmpty
  | Value.int n => n != 0
  | Value.missing => true

/-- One argument of `filter_data`: absent (`None`), a scalar value, or a
list of accepted values. -/
inductive Pred where
  | none
  | scalar (v : Value)
  | list (vs : List Value)
deriving DecidableEq

/-- Combined effect of the two stages of `filter_data` for one argument:
the scalar-wrapping stage (`if gender and not isinstance(gender, list):
gender = [gender]`) followed by the truthiness guard (`if gender:`).
Returns the accepted list exactly when the guard fires. -/
def predList : Pred → Option (List Value)
  | Pred.none => Option.none
  | Pred.scalar v => if truthy v then Option.some [v] else Option.none
  | Pred.list vs => if vs.isEmpty then Option.none else Option.some vs

/-- One conditional filtering step of `filter_data`:
`filtered_data = filtered_data[filtered_data[col].isin(vs)]` under its guard. -/
def applyPred (col : String) (p : Pred) (d : Dataset) : Dataset :=
  match predList p with
  | Option.none => d
  | Option.some vs => d.filter (fun r => vs.contains (getVal r col))

/-- `SYEP_API.filter_data`: the eight conditional filters applied in source
order, starting from the complete Dataset. -/
def filter_data (d : Dataset)
    (gender race second_language_spoken_at_home adult_live_with
     job_format program hours_worked_per_week daily_work_type : Pred) : Dataset :=
  applyPred "daily_work_type" daily_work_type
    (applyPred "hours_worked_per_week" hours_worked_per_week
      (applyPred "program" program
        (applyPred "job_format" job_format
          (applyPred "adult_live_with" adult_live_with
            (applyPred "second_language_spoken_at_home" second_language_spoken_at_home
              (applyPred "race" race
                (applyPred "gender" gender d)))))))

/-- The eight keyword arguments of `filter_data` bundled as a record;
every field defaults to `None` as in the source signature. -/
structure FilterArgs where
  gender : Pred := Pred.none
  race : Pred := Pred.none
  second_language_spoken_at_home : Pred := Pred.none
  adult_live_with : Pred := Pred.none
  job_format : Pred := Pred.none
  program : Pred := Pred.none
  hours_worked_per_week : Pred := Pred.none
  daily_work_type : Pred := Pred.none
deriving DecidableEq

/-- The call `filter_data()` with no predicates supplied. -/
def noFilters : FilterArgs := {}

/-- `filter_data` on a bundled argument record. -/
def filterData (d : Dataset) (a : FilterArgs) : Dataset :=
  filter_data d a.gender a.race a.second_language_spoken_at_home a.adult_live_with
    a.job_format a.program a.hours_worked_per_week a.daily_work_type

/-- Names of the eight filter dimensions, in the source argument order. -/
inductive FilterCol where
  | gender
  | race
  | secondLanguage
  | adultLiveWith
  | jobFormat
  | programCol
  | hoursWorked
  | dailyWork
deriving DecidableEq

/-- The Dataset column restricted by each filter dimension. -/
def colName : FilterCol → String
  | FilterCol.gender => "gender"
  | FilterCol.race => "race"
  | FilterCol.secondLanguage => "second_language_spoken_at_home"
  | FilterCol.adultLiveWith => "adult_live_with"
  | FilterCol.jobFormat => "job_format"
  | FilterCol.programCol => "program"
  | FilterCol.hoursWorked => "hours_worked_per_week"
  | FilterCol.dailyWork => "daily_work_type"

/-- The predicate supplied for a given filter dimension. -/
def argOf (a : FilterArgs) : FilterCol → Pred
  | FilterCol.gender => a.gender
  | FilterCol.race => a.race
  | FilterCol.secondLanguage => a.second_language_spoken_at_home
  | FilterCol.adultLiveWith => a.adult_live_with
  | FilterCol.jobFormat => a.job_format
  | FilterCol.programCol => a.program
  | FilterCol.hoursWorked => a.hours_worked_per_week
  | FilterCol.dailyWork => a.daily_work_type

/-- Supplying the predicate of a single filter dimension. -/
def setArg (a : FilterArgs) : FilterCol → Pred → FilterArgs
  | FilterCol.gender, p => { a with gender := p }
  | FilterCol.race, p => { a with race := p }
  | FilterCol.secondLanguage, p => { a with second_language_spoken_at_home := p }
  | FilterCol.adultLiveWith, p => { a with adult_live_with := p }
  | FilterCol.jobFormat, p => { a with job_format := p }
  | FilterCol.programCol, p => { a with program := p }
  | FilterCol.hoursWorked, p => { a with hours_worked_per_week := p }
  | FilterCol.dailyWork, p => { a with daily_work_type := p }

/-- Whether one row passes one argument of `filter_data`. -/
def rowPass (p : Pred) (v : Value) : Bool :=
  match predList p with
  | Option.none => true
  | Option.some vs => vs.contains v

/-- Whether a row passes all eight arguments of `filter_data`. -/
def passes (a : FilterArgs) (r : Row) : Bool :=
  rowPass a.gender (getVal r "gender") &&
  rowPass a.race (getVal r "race") &&
  rowPass a.second_language_spoken_at_home (getVal r "second_language_spoken_at_home") &&
  rowPass a.adult_live_with (getVal r "adult_live_with") &&
  rowPass a.job_format (getVal r "job_format") &&
  rowPass a.program (getVal r "program") &&
  rowPass a.hours_worked_per_week (getVal r "hours_worked_per_week") &&
  rowPass a.daily_work_type (getVal r "daily_work_type")

/-- Order used to model the ascending sorted group keys of `pandas.crosstab`. -/
def valueLeB : Value → Value → Bool
  | Value.missing, _ => true
  | _, Value.missing => false
  | Value.int m, Value.int n => decide (m ≤ n)
  | Value.int _, Value.str _ => true
  | Value.str _, Value.int _ => false
  | Value.str s, Value.str t => decide (s ≤ t)

/-- Sorting a list of values ascending, as `pandas.crosstab` sorts its keys. -/
def sortVals (l : List Value) : List Value :=
  List.insertionSort (fun a b => valueLeB a b = true) l

/-- The Chart Aggregate: a 2-D matrix of co-occurrence counts indexed by the
distinct x-values and distinct y-values. -/
structure Crosstab where
  xvals : List Value
  yvals : List Value
  cells : List (List Nat)
deriving DecidableEq

/-- The rows that `pandas.crosstab` keeps: a row whose value in either key
column is `NaN` is ignored by the cross-tabulation. -/
def ctKept (data : Dataset) (x y : String) : Dataset :=
  data.filter (fun r =>
    !(getVal r x == Value.missing) && !(getVal r y == Value.missing))

/-- One cell of the cross-tabulation: how many kept rows carry the given
pair of key values. -/
def ctCell (data : Dataset) (x y : String) (a b : Value) : Nat :=
  (ctKept data x y).countP
    (fun r => decide (getVal r x = a) && decide (getVal r y = b))

/-- `pandas.crosstab(data[x], data[y])`. -/
def crosstab (data : Dataset) (x y : String) : Crosstab :=
  let kept := ctKept data x y
  let xs := sortVals (uniqueFirst (kept.map (fun r => getVal r x)))
  let ys := sortVals (uniqueFirst (kept.map (fun r => getVal r y)))
  Crosstab.mk xs ys (xs.map (fun a => ys.map (fun b => ctCell data x y a b)))

/-- The sum of all cells of a Chart Aggregate. -/
def ctTotal (ct : Crosstab) : Nat := (ct.cells.map List.sum).sum

/-- An arbitrary Python object passed as colormap argument: either a string
or some non-string object, which is all `isinstance(heatmap_cmap, str)`
distinguishes. -/
inductive PyObj where
  | str (s : String)
  | nonStr
deriving DecidableEq

/-- Python `x_axis.replace("_", " ")` for the single-character pattern. -/
def underscoreToSpace (s : String) : String :=
  String.mk (s.data.map (fun c => if c = '_' then ' ' else c))

/-- Character loop of Python `str.title`: a letter starting a run of letters
is uppercased, later letters of the run are lowercased. -/
def pyTitleAux : List Char → Bool → List Char
  | [], _ => []
  | c :: cs, prevAlpha =>
      (if c.isAlpha then (if prevAlpha then c.toLower else c.toUpper) else c)
        :: pyTitleAux cs c.isAlpha

/-- Python `str.title`. -/
def pyTitle (s : String) : String := String.mk (pyTitleAux s.data false)

/-- Description of the figure drawn by `create_plot`: the chart kind with the
data and style parameters it hands to the charting library. -/
inductive PlotDesc where
  | countplot (x color edge xlabel ylabel title : String)
  | stackedBar (ct : Crosstab) (palette edge xlabel ylabel title : String)
  | heatmap (ct : Crosstab) (cmap xlabel ylabel title : String)
  | emptyFig
deriving DecidableEq

/-- `SYEP_API.create_plot`, modelled as a description of the figure it
draws.  The parameter `known` stands for the external `plt.colormaps()`
list.  Figure management calls (`plt.clf`, `plt.figure`, the trailing
`plt.xticks(rotation=0)`) have no observable effect in this model;
an unmatched `plot_type` leaves the fresh figure empty. -/
def create_plot (known : List String) (plot_type : String) (width height : Int)
    (x_axis y_axis : String) (data : Dataset) (countplot_color : String)
    (stacked_bar_plot_palette : String) (heatmap_cmap : PyObj)
    (edgecolor : String) : PlotDesc :=
  if plot_type = "Countplot" then
    PlotDesc.countplot x_axis countplot_color edgecolor
      (underscoreToSpace x_axis) "Count"
      ("Count Plot of " ++ pyTitle (underscoreToSpace x_axis))
  else if plot_type = "Stacked Bar Plot" then
    PlotDesc.stackedBar (crosstab data x_axis y_axis) stacked_bar_plot_palette
      edgecolor (underscoreToSpace x_axis) "Count"
      ("Stacked Bar Plot of " ++ pyTitle (underscoreToSpace y_axis) ++ " by "
        ++ pyTitle (underscoreToSpace x_axis))
  else if plot_type = "Heatmap" then
    let cmap :=
      match heatmap_cmap with
      | PyObj.str s => if known.contains s then s else "Blues"
      | PyObj.nonStr => "Blues"
    PlotDesc.heatmap (crosstab data x_axis y_axis) cmap
      (underscoreToSpace x_axis) (underscoreToSpace y_axis)
      ("Heatmap of " ++ pyTitle (underscoreToSpace y_axis) ++ " by "
        ++ pyTitle (underscoreToSpace x_axis))
  else PlotDesc.emptyFig

/-- The colormap a figure description was built with, when it is a heatmap. -/
def plotCmap : PlotDesc → Option String
  | PlotDesc.heatmap _ cmap _ _ _ => Option.some cmap
  | _ => Option.none

/-- The Chart Aggregate a figure description was built from, when it is a
stacked bar plot or a heatmap. -/
def plotCt : PlotDesc → Option Crosstab
  | PlotDesc.stackedBar ct _ _ _ _ _ => Option.some ct
  | PlotDesc.heatmap ct _ _ _ _ => Option.some ct
  | _ => Option.none

/-- The literal `additional_columns` allow-list of `generate_table`. -/
def additionalColumns : List String := [
  "Program",
  "Summer Job Experience: Did you work at the same location/employer last summer?",
  "Summer Job Experience: What category best describes what you did this summer?",
  "Summer Job Experience: On average, how many hours did you work each week this summer?",
  "Summer Job Experience: What type of daily work did you do this summer?",
  "Summer Job Experience: Overall, how well did the job match with your skills and interests?",
  "Summer Job Experience: How likely are you to consider a career in the type of work you did this summer?",
  "Summer Job Experience: If you had a job supervisor, how supportive were they overall?",
  "Summer Job Experience: Did your supervisor - Properly train for your summer job?",
  "Summer Job Experience: Did your supervisor - Help you understand your role at your summer job?",
  "Summer Job Experience: Did your supervisor - Help you understand what was expected of you for your summer job?",
  "Summer Job Experience: Did your supervisor - Give you feedback on how you were doing at your summer job?",
  "Summer Job Experience: Did your supervisor - Help you think about how to achieve your educational or career goals?",
  "Summer Job Experience: Did your supervisor - Make you feel comfortable talking about challenges outside of work?",
  "Summer Job Experience: Overall, how would you rate your job experience this summer?",
  "Summer Job Experience: Now that the summer is over - Do you have someone you can use as a job reference?",
  "Summer Job Experience: Now that the summer is over - Do you have an adult you worked with that you consider a mentor?",
  "Summer Job Experience: Now that the summer is over - Would you recommend this job to a friend?",
  "Summer Job Experience: Now that the summer is over - Do you feel better prepared to enter a new job?",
  "Summer Job Experience: Which of the following industries are you most interested in pursuing as a career?",
  "Summer Job Experience: What do you plan to do after high school?",
  "Job Search Skills: Indicate whether you have completed any of the following - I have prepared, edited, and proofread my resume.",
  "Job Search Skills: Indicate whether you have completed any of the following - I have prepared, edited, and proofread my cover letter.",
  "Job Search Skills: Indicate whether you have completed any of the following - I have asked an adult (e.g. family member, teacher, or neighbor) to serve as a reference for me when I apply for jobs.",
  "Job Search Skills: Indicate whether you have completed any of the following - I have searched for jobs online using a job board (e.g. Monster, Indeed, Career Builder, Snagajob, Zip Recruiter)",
  "Job Search Skills: Indicate whether you have completed any of the following  - I have talked with my family, neighbors, teachers, and friends, about the types of jobs I want -- and have asked for their help finding job opportunities.",
  "Job Search Skills: Indicate whether you have completed any of the following  - I have developed some answer to the usual questions asked during an interview (e.g. what are your strength and weaknesses?)",
  "Job Search Skills: Indicate whether you have completed any of the following - I have practiced my interviewing skills with an adult (e.g. family member, teacher, or neighbor).",
  "Work Habits: Indicate how much you agree with each of the following phrases - I am usually on time for school or work.",
  "Work Habits: Indicate how much you agree with each of the following phrases - I am rarely absent from school or call in sick.",
  "Work Habits: Indicate how much you agree with each of the following phrases - I usually meet my deadlines and hand in assignments on time.",
  "Work Habits: Indicate how much you agree with each of the following phrases - I often keep track of my assignments and rarely forget to hand things in.",
  "Work Habits: Indicate how much you agree with each of the following phrases - I usually work independently without a lot of supervision.",
  "Work Habits: Indicate how much you agree with each of the following phrases - I often ask for help if directions are not clear.",
  "Work Habits: Indicate how much you agree with each of the following phrases - I often work in teams with other people.",
  "Communication Skills: Indicate how much you agree with each of the following phrases - I rarely get upset or lose my temper with other people.",
  "Communication Skills: Indicate how much you agree with each of the following phrases - I rarely get upset when supervisors or teachers correct my mistakes.",
  "Communication Skills: Indicate how much you agree with each of the following phrases - I rarely get into arguments with my friends.",
  "Communication Skills: Indicate how much you agree with each of the following phrases - I rarely get into arguments with my parents or teachers.",
  "Communication Skills: Indicate how much you agree with each of the following phrases - I rarely have difficulty resolving arguments with people.",
  "Communication Skills: Indicate how much you agree with each of the following phrases - I often make eye contact when having a conversation.",
  "Job Search Skills: What skills do you feel that you need to develop and improve to meet your future career goals?",
  "Job Search Skills: Which of the following best describe how you typically manage your money?",
  "Job Search Skills: Do you have any items that you regularly help pay for in your household?",
  "Relationships: Over the past 30 days, how often did you feel that EACH of the following was a positive role model for you?  - Parent",
  "Relationships: Over the past 30 days, how often did you feel that EACH of the following was a positive role model for you?  - Brother or sister",
  "Relationships: Over the past 30 days, how often did you feel that EACH of the following was a positive role model for you?  - Other family member (grandparent, aunt/uncle)",
  "Relationships: Over the past 30 days, how often did you feel that EACH of the following was a positive role model for you?  - Teacher",
  "Relationships: Over the past 30 days, how often did you feel that EACH of the following was a positive role model for you?  - Coach",
  "Relationships: Over the past 30 days, how often did you feel that EACH of the following was a positive role model for you?  - Clergy (Minister/Priest, Imam, Rabbi)",
  "Relationships: Over the past 30 days, how often did you feel that EACH of the following was a positive role model for you?  - Job Supervisor",
  "Relationships: Over the past 30 days, how often did you feel that you had a lot to contribute to EACH of the following groups? - Family",
  "Relationships: Over the past 30 days, how often did you feel that you had a lot to contribute to EACH of the following groups?  Friends",
  "Relationships: Over the past 30 days, how often did you feel that you had a lot to contribute to EACH of the following groups? - Co-workers",
  "Relationships: Over the past 30 days, how often did you feel that you had a lot to contribute to EACH of the following groups? - People in your neighborhood",
  "Relationships: Over the past 30 days, how often did you feel that you had a lot to contribute to EACH of the following groups? - People in your school",
  "Relationships: Over the past 30 days, how often did you feel that you had a lot to contribute to EACH of the following groups? - People in your place of worship",
  "Well-being: Over the last two weeks, how often have you been bothered by the following problems? - Feeling nervous, anxious, or on edge",
  "Well-being: Over the last two weeks, how often have you been bothered by the following problems? - Not being able to stop or control worrying",
  "Well-being: Over the last two weeks, how often have you been bothered by the following problems? - Feeling down, depressed or hopeless",
  "Well-being: Over the last two weeks, how often have you been bothered by the following problems? - Little interest or pleasure in doing things",
  "Demographics: Gender",
  "Demographics: Race",
  "Demographics: Is there another language other than English that is regularly spoken in your home?",
  "Demographics: What best describes the adult guardian that you primarily live with?"
]

/-- The body of the `for column in additional_columns` removal loop of
`generate_table`, with Python list-iteration semantics: the index advances
by one each step even when the current item was just removed, and
`list.remove` deletes the first occurrence of the value.  The fuel
argument bounds the number of iterations; the initial length suffices
because the index grows every step and the list never grows. -/
def removeLoop (x y : String) : Nat → Nat → List String → List String
  | 0, _, lst => lst
  | Nat.succ fuel, i, lst =>
    if h : i < lst.length then
      let item := lst.get ⟨i, h⟩
      if item = x then removeLoop x y fuel (i + 1) (lst.erase item)
      else if item = y then removeLoop x y fuel (i + 1) (lst.erase item)
      else removeLoop x y fuel (i + 1) lst
    else lst

/-- The removal loop of `generate_table` run over a list from index 0. -/
def removeChosen (x y : String) (lst : List String) : List String :=
  removeLoop x y lst.length 0 lst

/-- Result of the table callback: the placeholder markdown pane or a
datatable.  A table carries its column list, the projected and
`dropna`-ed rows of the two chosen columns, and the rows of the
additional columns concatenated alongside. -/
inductive TableOut where
  | placeholder
  | table (cols : List String) (localRows : List Row) (extraRows : List Row)
deriving DecidableEq

/-- The column list of a table result. -/
def tableCols : TableOut → List String
  | TableOut.placeholder => []
  | TableOut.table cols _ _ => cols

/-- `generate_table` of `syep_explorer.py`: filter, placeholder on empty,
project the chosen x and y columns dropping rows with missing entries,
and optionally concatenate the additional-columns allow-list minus the
chosen columns. -/
def generate_table (d : Dataset) (x_axis_selection y_axis_selection : String)
    (a : FilterArgs) (include_all_data_checkbox : Bool) : TableOut :=
  let filtered := filterData d a
  if filtered.isEmpty then TableOut.placeholder
  else
    let columns := [x_axis_selection, y_axis_selection]
    let localRows := (filtered.map (fun r => columns.map (fun c => (c, getVal r c)))).filter
      (fun pr => pr.all (fun cv => !(cv.2 == Value.missing)))
    if include_all_data_checkbox then
      let ac := removeChosen x_axis_selection y_axis_selection additionalColumns
      if ac.isEmpty then TableOut.table columns localRows []
      else
        TableOut.table (columns ++ ac) localRows
          (filtered.map (fun r => ac.map (fun c => (c, getVal r c))))
    else TableOut.table columns localRows []

/-- Integer range `np.arange(lo, hi + 1)`. -/
def intRange (lo hi : Int) : List Int :=
  (List.range (hi + 1 - lo).toNat).map (fun k => lo + (k : Int))

/-- The line `np.arange(int(min(tick_locations)), int(max(tick_locations)) + 1)`.
Tick locations reported by the matplotlib axis are modelled as integers,
on which `int` truncation is the identity. -/
def intTickLocations (ticks : List Int) : List Int :=
  match ticks with
  | [] => []
  | t :: ts => intRange (ts.foldl min t) (ts.foldl max t)

/-- The tick-thinning comprehension of `generate_plot`:
`[loc for i, loc in enumerate(int_tick_locations) if i % tick_skip_slider == 0]`. -/
def thinTicks (skip : Int) (locs : List Int) : List Int :=
  (locs.enum.filter (fun p => (p.1 : Int) % skip == 0)).map Prod.snd

/-- Result of the plot callback: the placeholder pane, or the figure
together with the final x-tick locations, font size, and tilt; `crash`
marks the unbound-variable path taken on an unmatched plot type. -/
inductive PlotOut where
  | placeholder
  | figure (fig : PlotDesc) (ticks : List Int) (fontSize : Int) (tilted : Bool)
  | crash
deriving DecidableEq

/-- `generate_plot` of `syep_explorer.py`: filter, placeholder on empty,
dispatch to `create_plot` with the style options of the selected kind,
then post-process the integer x-tick locations.  The parameter `axTicks`
stands for the tick locations the matplotlib axis reports. -/
def generate_plot (known : List String) (d : Dataset) (plot_type : String)
    (x_axis_selection : Option String) (y_axis_selection : String) (a : FilterArgs)
    (width height : Int) (countplot_color_picker stacked_palette_selector : String)
    (heatmap_cmap_selector : PyObj) (border_checkbox tilt_x_ticks : Bool)
    (x_tick_font_size : Int) (show_all_x_ticks : Bool) (tick_skip_slider : Int)
    (axTicks : List Int) : PlotOut :=
  let x := x_axis_selection.getD "program"
  let filtered := filterData d a
  if filtered.isEmpty then PlotOut.placeholder
  else
    let edgecolor := if border_checkbox then "black" else "none"
    let fig? : Option PlotDesc :=
      if plot_type = "Countplot" then
        Option.some (create_plot known plot_type width height x y_axis_selection
          filtered countplot_color_picker "Set1" (PyObj.str "Blues") edgecolor)
      else if plot_type = "Stacked Bar Plot" then
        Option.some (create_plot known plot_type width height x y_axis_selection
          filtered "#1f77b4" stacked_palette_selector (PyObj.str "Blues") edgecolor)
      else if plot_type = "Heatmap" then
        Option.some (create_plot known plot_type width height x y_axis_selection
          filtered "#1f77b4" "Set1" heatmap_cmap_selector edgecolor)
      else Option.none
    match fig? with
    | Option.none => PlotOut.crash
    | Option.some fig =>
      let locs := intTickLocations axTicks
      let locs2 :=
        if !show_all_x_ticks && decide (1 < tick_skip_slider) then
          thinTicks tick_skip_slider locs
        else locs
      PlotOut.figure fig locs2 x_tick_font_size tilt_x_ticks

/-- Sample rows and datasets used by concrete witnesses below. -/
def rowFem : Row := [("gender", Value.str "Female"), ("race", Value.str "Black")]

/-- A second sample row. -/
def rowMale : Row := [("gender", Value.str "Male"), ("race", Value.str "Black")]

/-- A two-row sample Dataset. -/
def dsTwo : Dataset := [rowFem, rowMale]

/-- A one-row Dataset whose x-column entry is missing. -/
def dsNaN : Dataset := [[("x", Value.missing), ("y", Value.str "a")]]

/-- The first entry of the allow-list, used in concrete instances. -/
def colProgram : String := "Program"

/-- The second entry of the allow-list, used in concrete instances. -/
def colSameLocation : String :=
  "Summer Job Experience: Did you work at the same location/employer last summer?"

/-! ### Membership and order lemmas for the filter pipeline -/

theorem applyPred_sublist (col : String) (p : Pred) (d : Dataset) :
    (applyPred col p d).Sublist d := by
  unfold applyPred
  cases predList p
  · exact List.Sublist.refl d
  · exact List.filter_sublist d

theorem mem_applyPred {col : String} {p : Pred} {d : Dataset} {r : Row} :
    r ∈ applyPred col p d ↔ r ∈ d ∧ rowPass p (getVal r col) = true := by
  cases h : predList p <;> simp [applyPred, rowPass, h, List.mem_filter]

theorem mem_filterData {d : Dataset} {a : FilterArgs} {r : Row} :
    r ∈ filterData d a ↔ r ∈ d ∧ passes a r = true := by
  simp only [filterData, filter_data, mem_applyPred, passes, Bool.and_eq_true]
  tauto

theorem filterData_sublist (d : Dataset) (a : FilterArgs) :
    (filterData d a).Sublist d := by
  unfold filterData filter_data
  apply (applyPred_sublist _ _ _).trans
  apply (applyPred_sublist _ _ _).trans
  apply (applyPred_sublist _ _ _).trans
  apply (applyPred_sublist _ _ _).trans
  apply (applyPred_sublist _ _ _).trans
  apply (applyPred_sublist _ _ _).trans
  apply (applyPred_sublist _ _ _).trans
  exact applyPred_sublist _ _ _

theorem rowPass_none (v : Value) : rowPass Pred.none v = true := rfl

theorem rowPass_iff {p : Pred} {v : Value} :
    rowPass p v = true ↔ ∀ vs, predList p = Option.some vs → v ∈ vs := by
  cases h : predList p <;> simp [rowPass, h, List.contains, List.elem_iff]

theorem passes_iff_forall {a : FilterArgs} {r : Row} :
    passes a r = true ↔
      ∀ c : FilterCol, rowPass (argOf a c) (getVal r (colName c)) = true := by
  simp only [passes, Bool.and_eq_true]
  constructor
  · intro h c
    cases c <;> simp only [argOf, colName] <;> tauto
  · intro h
    refine ⟨⟨⟨⟨⟨⟨⟨?_, ?_⟩, ?_⟩, ?_⟩, ?_⟩, ?_⟩, ?_⟩, ?_⟩
    · exact h FilterCol.gender
    · exact h FilterCol.race
    · exact h FilterCol.secondLanguage
    · exact h FilterCol.adultLiveWith
    · exact h FilterCol.jobFormat
    · exact h FilterCol.programCol
    · exact h FilterCol.hoursWorked
    · exact h FilterCol.dailyWork

/-- C2: with every supplied predicate a list of accepted values, `filter_data`
returns exactly the rows of the Dataset whose value in each restricted column
(one with a nonempty accepted list, the only case in which the source guard
fires) is a member of that list — AND across columns, OR within a column —
as a sublist of the Dataset (original row order, whole rows, hence all
original columns); with no predicates supplied it returns the full Dataset. -/
theorem filter_lists_exact_c2 (d : Dataset) (a : FilterArgs)
    (hl : ∀ c : FilterCol, argOf a c = Pred.none ∨ ∃ vs, argOf a c = Pred.list vs) :
    (∀ r, r ∈ filterData d a ↔
        r ∈ d ∧ ∀ (c : FilterCol) (vs : List Value),
          predList (argOf a c) = Option.some vs → getVal r (colName c) ∈ vs) ∧
    (filterData d a).Sublist d ∧
    (a = noFilters → filterData d a = d) := by
  refine ⟨?_, filterData_sublist d a, ?_⟩
  · intro r
    rw [mem_filterData, passes_iff_forall]
    constructor
    · rintro ⟨hd, hp⟩
      exact ⟨hd, fun c vs hvs => (rowPass_iff.mp (hp c)) vs hvs⟩
    · rintro ⟨hd, hp⟩
      exact ⟨hd, fun c => rowPass_iff.mpr (hp c)⟩
  · rintro rfl
    rfl

/-- Witness for C2 at a concrete Dataset and a one-column list predicate. -/
theorem filter_lists_exact_c2_witness :
    rowFem ∈ filterData dsTwo { gender := Pred.list [Value.str "Female"] } ↔
      rowFem ∈ dsTwo ∧ ∀ (c : FilterCol) (vs : List Value),
        predList (argOf { gender := Pred.list [Value.str "Female"] } c) = Option.some vs →
          getVal rowFem (colName c) ∈ vs :=
  (filter_lists_exact_c2 dsTwo { gender := Pred.list [Value.str "Female"] }
    (by intro c; cases c <;> simp [argOf])).1 rowFem

/-- Counterexample to C3 as stated: the falsy scalar predicate (the empty
string) is never wrapped into a one-element list, so it imposes no
restriction, while the one-element accepted set containing the empty string
filters every row out. -/
theorem scalar_pred_c3_counterexample :
    filter_data [rowFem] (Pred.scalar (Value.str "")) Pred.none Pred.none Pred.none
        Pred.none Pred.none Pred.none Pred.none ≠
      filter_data [rowFem] (Pred.list [Value.str ""]) Pred.none Pred.none Pred.none
        Pred.none Pred.none Pred.none Pred.none := by
  decide

/-- C3 amended: for every truthy scalar value (one that passes the Python
truthiness guard, e.g. any non-empty string), `filter_data` behaves exactly
as if the one-element accepted set had been supplied for that column; a
falsy scalar imposes no restriction instead. -/
theorem scalar_pred_singleton_c3 (d : Dataset) (a : FilterArgs) (c : FilterCol)
    (v : Value) (hv : truthy v = true) :
    filterData d (setArg a c (Pred.scalar v)) =
      filterData d (setArg a c (Pred.list [v])) := by
  have h1 : predList (Pred.scalar v) = Option.some [v] := by simp [predList, hv]
  have h2 : predList (Pred.list [v]) = Option.some [v] := by simp [predList]
  cases c <;> simp [filterData, filter_data, setArg, applyPred, h1, h2]

/-- Witness for the amended C3 at a concrete truthy scalar. -/
theorem scalar_pred_singleton_c3_witness :
    truthy (Value.str "Female") = true ∧
      filterData dsTwo (setArg noFilters FilterCol.gender
          (Pred.scalar (Value.str "Female"))) =
        filterData dsTwo (setArg noFilters FilterCol.gender
          (Pred.list [Value.str "Female"])) :=
  ⟨by decide, scalar_pred_singleton_c3 dsTwo noFilters FilterCol.gender
    (Value.str "Female") (by decide)⟩

theorem passes_setArg_two (c1 c2 : FilterCol) (h : c1 ≠ c2) (p1 p2 : Pred) (r : Row) :
    passes (setArg (setArg noFilters c1 p1) c2 p2) r =
      (passes (setArg noFilters c1 p1) r && passes (setArg noFilters c2 p2) r) := by
  cases c1 <;> cases c2 <;>
    first
      | exact absurd rfl h
      | simp [passes, setArg, noFilters, rowPass_none, Bool.and_comm,
          Bool.and_assoc, Bool.and_left_comm]

/-- C4: for two single-column predicates on distinct filter dimensions, the
rows of the combined filter are exactly the rows lying in both one-predicate
filters (the intersection of the two row sets). -/
theorem filter_conjunctive_c4 (d : Dataset) (c1 c2 : FilterCol) (h : c1 ≠ c2)
    (p1 p2 : Pred) (r : Row) :
    r ∈ filterData d (setArg (setArg noFilters c1 p1) c2 p2) ↔
      r ∈ filterData d (setArg noFilters c1 p1) ∧
        r ∈ filterData d (setArg noFilters c2 p2) := by
  simp only [mem_filterData, passes_setArg_two c1 c2 h, Bool.and_eq_true]
  tauto

/-- Witness for C4 at two concrete single-column predicates. -/
theorem filter_conjunctive_c4_witness :
    rowFem ∈ filterData dsTwo (setArg (setArg noFilters FilterCol.gender
        (Pred.list [Value.str "Female"])) FilterCol.race
          (Pred.list [Value.str "Black"])) ↔
      rowFem ∈ filterData dsTwo (setArg noFilters FilterCol.gender
          (Pred.list [Value.str "Female"])) ∧
        rowFem ∈ filterData dsTwo (setArg noFilters FilterCol.race
          (Pred.list [Value.str "Black"])) :=
  filter_conjunctive_c4 dsTwo FilterCol.gender FilterCol.race (by decide)
    (Pred.list [Value.str "Female"]) (Pred.list [Value.str "Black"]) rowFem

/-- C5: when some supplied predicate has an accepted list excluding every
value that its column takes in the Dataset, the filtered view is empty and
both callbacks return the placeholder message. -/
theorem empty_filter_placeholder_c5 (d : Dataset) (a : FilterArgs) (c : FilterCol)
    (vs : List Value) (hp : predList (argOf a c) = Option.some vs)
    (hex : ∀ r ∈ d, getVal r (colName c) ∉ vs)
    (x y : String) (inc : Bool) (known : List String) (pt : String)
    (x? : Option String) (w h fs skip : Int) (cc pal : String) (cm : PyObj)
    (bc tilt showAll : Bool) (axTicks : List Int) :
    filterData d a = [] ∧
    generate_table d x y a inc = TableOut.placeholder ∧
    generate_plot known d pt x? y a w h cc pal cm bc tilt fs showAll skip axTicks =
      PlotOut.placeholder := by
  have hemp : filterData d a = [] := by
    rw [List.eq_nil_iff_forall_not_mem]
    intro r hr
    rw [mem_filterData, passes_iff_forall] at hr
    exact hex r hr.1 ((rowPass_iff.mp (hr.2 c)) vs hp)
  exact ⟨hemp, by simp [generate_table, hemp], by simp [generate_plot, hemp]⟩

/-- Witness for C5: a predicate accepting only a gender absent from the
Dataset empties the view and both callbacks emit the placeholder. -/
theorem empty_filter_placeholder_c5_witness :
    filterData dsTwo { gender := Pred.list [Value.str "Nonbinary"] } = [] ∧
    generate_table dsTwo "gender" "race"
        { gender := Pred.list [Value.str "Nonbinary"] } true = TableOut.placeholder ∧
    generate_plot [] dsTwo "Heatmap" (Option.some "gender") "race"
        { gender := Pred.list [Value.str "Nonbinary"] } 600 400 "#1f77b4" "Set1"
        (PyObj.str "Blues") false true 8 true 2 [0, 1] = PlotOut.placeholder :=
  empty_filter_placeholder_c5 dsTwo { gender := Pred.list [Value.str "Nonbinary"] }
    FilterCol.gender [Value.str "Nonbinary"] (by decide) (by decide)
    "gender" "race" true [] "Heatmap" (Option.some "gender") 600 400 8 2
    "#1f77b4" "Set1" (PyObj.str "Blues") false true true [0, 1]

/-! ### Distinct-value enumeration -/

theorem mem_uniqueAux {α : Type} [DecidableEq α] {a : α} :
    ∀ {l seen : List α}, a ∈ uniqueAux l seen ↔ a ∈ l ∧ a ∉ seen := by
  intro l
  induction l with
  | nil => intro seen; simp [uniqueAux]
  | cons x xs ih =>
    intro seen
    by_cases hx : x ∈ seen
    · rw [show uniqueAux (x :: xs) seen = uniqueAux xs seen by
        simp [uniqueAux, hx], ih]
      constructor
      · rintro ⟨h1, h2⟩
        exact ⟨List.mem_cons_of_mem x h1, h2⟩
      · rintro ⟨h1, h2⟩
        rcases List.mem_cons.mp h1 with rfl | h1
        · exact absurd hx h2
        · exact ⟨h1, h2⟩
    · rw [show uniqueAux (x :: xs) seen = x :: uniqueAux xs (x :: seen) by
        simp [uniqueAux, hx], List.mem_cons, ih]
      constructor
      · rintro (rfl | ⟨h1, h2⟩)
        · exact ⟨List.mem_cons_self a xs, hx⟩
        · exact ⟨List.mem_cons_of_mem x h1,
            fun hs => h2 (List.mem_cons_of_mem x hs)⟩
      · rintro ⟨h1, h2⟩
        by_cases hax : a = x
        · exact Or.inl hax
        · rcases List.mem_cons.mp h1 with rfl | h1
          · exact Or.inl rfl
          · refine Or.inr ⟨h1, fun hs => ?_⟩
            rcases List.mem_cons.mp hs with h | h
            · exact hax h
            · exact h2 h

theorem nodup_uniqueAux {α : Type} [DecidableEq α] :
    ∀ (l seen : List α), (uniqueAux l seen).Nodup := by
  intro l
  induction l with
  | nil => intro seen; simp [uniqueAux]
  | cons x xs ih =>
    intro seen
    by_cases hx : x ∈ seen
    · rw [show uniqueAux (x :: xs) seen = uniqueAux xs seen by simp [uniqueAux, hx]]
      exact ih _
    · rw [show uniqueAux (x :: xs) seen = x :: uniqueAux xs (x :: seen) by
        simp [uniqueAux, hx], List.nodup_cons]
      exact ⟨fun hmem => (mem_uniqueAux.mp hmem).2 (List.mem_cons_self x seen), ih _⟩

/-- C6: for each of the eight fixed filter columns, the distinct-value
enumeration is lexicographically sorted ascending and duplicate-free, its
members are exactly the string coercions of the non-missing values the
column takes (in particular it never contains a missing entry), and
re-running it on an unchanged Dataset returns the same list: it is a pure
function of the Dataset. -/
theorem unique_enumeration_c6 (d : Dataset) (c : FilterCol) :
    List.Sorted (· ≤ ·) (getUniqueCol d (colName c)) ∧
    (getUniqueCol d (colName c)).Nodup ∧
    (∀ s, s ∈ getUniqueCol d (colName c) ↔
      ∃ v ∈ columnVals d (colName c), v ≠ Value.missing ∧ pyStr v = s) ∧
    getUniqueCol d (colName c) = getUniqueCol d (colName c) := by
  refine ⟨List.sorted_insertionSort _ _, ?_, ?_, rfl⟩
  · exact ((List.perm_insertionSort _ _).nodup_iff).mpr (nodup_uniqueAux _ _)
  · intro s
    unfold getUniqueCol uniqueFirst
    rw [(List.perm_insertionSort _ _).mem_iff, mem_uniqueAux]
    simp [List.mem_map, List.mem_filter]
    tauto

/-- Witness for C6 at a concrete Dataset, column, and candidate string. -/
theorem unique_enumeration_c6_witness :
    "Female" ∈ getUniqueCol dsTwo (colName FilterCol.gender) ↔
      ∃ v ∈ columnVals dsTwo (colName FilterCol.gender),
        v ≠ Value.missing ∧ pyStr v = "Female" :=
  (unique_enumeration_c6 dsTwo FilterCol.gender).2.2.1 "Female"

/-! ### Whitespace normalization -/

theorem ltrim_of_rtrim (l : List Char) : ltrim (rtrim (ltrim l)) = rtrim (ltrim l) := by
  cases hr : rtrim (ltrim l) with
  | nil => rfl
  | cons c cs =>
    have hpre : rtrim (ltrim l) <+: ltrim l := List.rdropWhile_prefix isWS (ltrim l)
    rw [hr] at hpre
    obtain ⟨t, ht⟩ := hpre
    have hml : List.dropWhile isWS l = c :: (cs ++ t) := by
      unfold ltrim at ht
      simpa using ht.symm
    have hm : 0 < (List.dropWhile isWS l).length := by rw [hml]; simp
    have hc : ¬ isWS ((List.dropWhile isWS l).get ⟨0, hm⟩) = true :=
      List.dropWhile_get_zero_not isWS l hm
    have hc2 : (List.dropWhile isWS l).get ⟨0, hm⟩ = c := by simp [hml]
    rw [hc2] at hc
    show List.dropWhile isWS (c :: cs) = c :: cs
    simp [List.dropWhile_cons, hc]

theorem pyStrip_idem (s : String) : pyStrip (pyStrip s) = pyStrip s := by
  show String.mk (rtrim (ltrim (rtrim (ltrim s.data)))) = String.mk (rtrim (ltrim s.data))
  rw [ltrim_of_rtrim]
  show String.mk (List.rdropWhile isWS (List.rdropWhile isWS (ltrim s.data))) = _
  rw [List.rdropWhile_idempotent]
  rfl

/-- C7: the normalization pass trims exactly the string-valued cells, leaves
every non-string cell untouched, and is idempotent: applying it twice to any
Dataset yields the same Dataset as applying it once. -/
theorem normalization_idempotent_c7 (d : Dataset) :
    prepare_data d = d.map (fun r => r.map (fun cv => (cv.1, normalizeValue cv.2))) ∧
    (∀ s, normalizeValue (Value.str s) = Value.str (pyStrip s)) ∧
    (∀ v, (∀ s, v ≠ Value.str s) → normalizeValue v = v) ∧
    prepare_data (prepare_data d) = prepare_data d := by
  refine ⟨rfl, fun s => rfl, ?_, ?_⟩
  · intro v hv
    cases v with
    | str s => exact absurd rfl (hv s)
    | int n => rfl
    | missing => rfl
  · unfold prepare_data
    rw [List.map_map]
    apply List.map_congr_left
    intro r _
    simp only [Function.comp_apply, List.map_map]
    apply List.map_congr_left
    intro cv _
    simp only [Function.comp_apply]
    cases cv with
    | mk c v =>
      cases v with
      | str s => simp [normalizeValue, pyStrip_idem]
      | int n => rfl
      | missing => rfl

/-- Witness for C7: a non-string cell is untouched and a concrete Dataset is
a fixed point after one pass. -/
theorem normalization_idempotent_c7_witness :
    normalizeValue (Value.int 7) = Value.int 7 ∧
      prepare_data (prepare_data dsTwo) = prepare_data dsTwo :=
  ⟨(normalization_idempotent_c7 dsTwo).2.2.1 (Value.int 7)
      (fun s h => Value.noConfusion h),
    (normalization_idempotent_c7 dsTwo).2.2.2⟩

/-! ### Heatmap colormap fallback -/

/-- C9: Heatmap construction uses a supplied colormap name unchanged exactly
when it is a string belonging to the known-colormaps list; any non-string or
unknown name is silently replaced by the fixed default `Blues`, and the
chart is built either way. -/
theorem heatmap_cmap_fallback_c9 (known : List String) (w h : Int) (x y : String)
    (data : Dataset) (cc pal edge : String) (cm : PyObj) :
    (∀ s, cm = PyObj.str s → s ∈ known →
      plotCmap (create_plot known "Heatmap" w h x y data cc pal cm edge) =
        Option.some s) ∧
    ((∀ s, cm = PyObj.str s → s ∉ known) →
      plotCmap (create_plot known "Heatmap" w h x y data cc pal cm edge) =
        Option.some "Blues") := by
  constructor
  · rintro s rfl hs
    simp [create_plot, plotCmap, hs]
  · intro hns
    cases cm with
    | str s =>
      have hs := hns s rfl
      simp [create_plot, plotCmap, hs]
    | nonStr => simp [create_plot, plotCmap]

/-- Witness for C9 at a known and an unknown colormap argument. -/
theorem heatmap_cmap_fallback_c9_witness :
    plotCmap (create_plot ["Blues", "viridis"] "Heatmap" 600 400 "x" "y" dsTwo
        "#1f77b4" "Set1" (PyObj.str "viridis") "none") = Option.some "viridis" ∧
    plotCmap (create_plot ["Blues", "viridis"] "Heatmap" 600 400 "x" "y" dsTwo
        "#1f77b4" "Set1" PyObj.nonStr "none") = Option.some "Blues" :=
  ⟨(heatmap_cmap_fallback_c9 ["Blues", "viridis"] 600 400 "x" "y" dsTwo
      "#1f77b4" "Set1" "none" (PyObj.str "viridis")).1 "viridis" rfl (by decide),
    (heatmap_cmap_fallback_c9 ["Blues", "viridis"] 600 400 "x" "y" dsTwo
      "#1f77b4" "Set1" "none" PyObj.nonStr).2 (fun s h => PyObj.noConfusion h)⟩

/-! ### Chart Aggregate counting -/

theorem sum_map_add {κ : Type} (A : List κ) (f g : κ → Nat) :
    (A.map (fun a => f a + g a)).sum = (A.map f).sum + (A.map g).sum := by
  induction A with
  | nil => rfl
  | cons a A ih =>
    simp only [List.map_cons, List.sum_cons, ih]
    omega

theorem sum_map_ite_eq {κ : Type} [DecidableEq κ] (f : κ → Nat) :
    ∀ (A : List κ) (k : κ), A.Nodup → k ∈ A →
      (A.map (fun a => if k = a then f a else 0)).sum = f k := by
  intro A
  induction A with
  | nil => intro k _ hk; cases hk
  | cons a A ih =>
    intro k hnd hk
    rcases List.mem_cons.mp hk with rfl | hk2
    · simp only [List.map_cons, List.sum_cons, if_pos rfl]
      have hz : (A.map (fun b => if k = b then f b else 0)).sum = 0 := by
        apply List.sum_eq_zero
        intro z hz
        rcases List.mem_map.mp hz with ⟨b, hb, rfl⟩
        have : k ≠ b := fun h => (List.nodup_cons.mp hnd).1 (h ▸ hb)
        simp [this]
      rw [hz]
      simp
    · have hka : k ≠ a := by
        rintro rfl
        exact (List.nodup_cons.mp hnd).1 hk2
      simp only [List.map_cons, List.sum_cons, if_neg hka]
      rw [ih k (List.nodup_cons.mp hnd).2 hk2]
      omega

theorem sum_sum_countP_pairs {α κ₁ κ₂ : Type} [DecidableEq κ₁] [DecidableEq κ₂]
    (A : List κ₁) (B : List κ₂) (kx : α → κ₁) (ky : α → κ₂) :
    ∀ l : List α, A.Nodup → B.Nodup → (∀ r ∈ l, kx r ∈ A ∧ ky r ∈ B) →
      (A.map (fun a => (B.map (fun b =>
        l.countP (fun r => decide (kx r = a) && decide (ky r = b)))).sum)).sum = l.length := by
  intro l
  induction l with
  | nil =>
    intro _ _ _
    rw [List.length_nil]
    apply List.sum_eq_zero
    intro z hz
    rcases List.mem_map.mp hz with ⟨a, _, rfl⟩
    apply List.sum_eq_zero
    intro w hw
    rcases List.mem_map.mp hw with ⟨b, _, rfl⟩
    simp [List.countP_nil]
  | cons r l ih =>
    intro hA hB hmem
    have hr := hmem r (List.mem_cons_self r l)
    have hl : ∀ r2 ∈ l, kx r2 ∈ A ∧ ky r2 ∈ B :=
      fun r2 h2 => hmem r2 (List.mem_cons_of_mem r h2)
    have step : ∀ (a : κ₁) (b : κ₂),
        (r :: l).countP (fun r2 => decide (kx r2 = a) && decide (ky r2 = b)) =
          l.countP (fun r2 => decide (kx r2 = a) && decide (ky r2 = b)) +
            (if kx r = a ∧ ky r = b then 1 else 0) := by
      intro a b
      rw [List.countP_cons]
      congr 1
      by_cases h1 : kx r = a <;> by_cases h2 : ky r = b <;> simp [h1, h2]
    have hrw : (A.map (fun a => (B.map (fun b =>
        (r :: l).countP (fun r2 => decide (kx r2 = a) && decide (ky r2 = b)))).sum)).sum =
        (A.map (fun a => (B.map (fun b =>
          l.countP (fun r2 => decide (kx r2 = a) && decide (ky r2 = b)))).sum)).sum +
        (A.map (fun a => (B.map (fun b =>
          if kx r = a ∧ ky r = b then 1 else 0)).sum)).sum := by
      rw [← sum_map_add]
      apply congrArg
      apply List.map_congr_left
      intro a _
      rw [← sum_map_add]
      apply congrArg
      apply List.map_congr_left
      intro b _
      exact step a b
    rw [hrw, ih hA hB hl]
    have hone : (A.map (fun a => (B.map (fun b =>
        if kx r = a ∧ ky r = b then 1 else 0)).sum)).sum = 1 := by
      have hinner : ∀ a : κ₁, (B.map (fun b =>
          if kx r = a ∧ ky r = b then 1 else 0)).sum = if kx r = a then 1 else 0 := by
        intro a
        by_cases ha : kx r = a
        · rw [if_pos ha]
          have hmap : B.map (fun b => if kx r = a ∧ ky r = b then 1 else 0) =
              B.map (fun b => if ky r = b then 1 else 0) := by
            apply List.map_congr_left
            intro b _
            simp [ha]
          rw [hmap]
          simpa using sum_map_ite_eq (fun _ => 1) B (ky r) hB hr.2
        · rw [if_neg ha]
          apply List.sum_eq_zero
          intro z hz
          rcases List.mem_map.mp hz with ⟨b, _, rfl⟩
          simp [ha]
      have hout : (A.map (fun a => (B.map (fun b =>
          if kx r = a ∧ ky r = b then 1 else 0)).sum)).sum =
          (A.map (fun a => if kx r = a then 1 else 0)).sum := by
        apply congrArg
        apply List.map_congr_left
        intro a _
        exact hinner a
      rw [hout]
      exact sum_map_ite_eq (fun _ => 1) A (kx r) hA hr.1
    rw [hone, List.length_cons]

theorem nodup_sortVals (l : List Value) : (sortVals l).Nodup ↔ l.Nodup :=
  (List.perm_insertionSort _ _).nodup_iff

theorem mem_sortVals {v : Value} {l : List Value} : v ∈ sortVals l ↔ v ∈ l :=
  (List.perm_insertionSort _ _).mem_iff

/-- Counterexample to C1 as stated: on a filtered view holding one row whose
x-column entry is missing, the Heatmap Chart Aggregate is built but its cell
counts sum to 0, not to the row count 1 — the cross-tabulation silently
drops rows with a missing value in either axis column. -/
theorem crosstab_total_c1_counterexample :
    plotCt (create_plot [] "Heatmap" 600 400 "x" "y" dsNaN "#1f77b4" "Set1"
        (PyObj.str "Blues") "none") = Option.some (crosstab dsNaN "x" "y") ∧
    ctTotal (crosstab dsNaN "x" "y") = 0 ∧
    dsNaN.length = 1 ∧
    ctTotal (crosstab dsNaN "x" "y") ≠ dsNaN.length := by
  refine ⟨rfl, by decide, rfl, by decide⟩

/-- C1 amended: the Chart Aggregate built for a Stacked Bar Plot or Heatmap
has integer cell counts that sum to the number of rows of the filtered view
that carry a non-missing value in both axis columns (rows with a missing
entry in either axis column are dropped by the cross-tabulation); each such
row is counted exactly once, and every cell whose value pair no kept row
carries is zero. -/
theorem crosstab_total_c1 (data : Dataset) (x y : String) :
    ctTotal (crosstab data x y) = (ctKept data x y).length ∧
    (∀ a b, (∀ r ∈ ctKept data x y, ¬(getVal r x = a ∧ getVal r y = b)) →
      ctCell data x y a b = 0) ∧
    (∀ (known : List String) (w h : Int) (cc pal edge : String) (cm : PyObj),
      plotCt (create_plot known "Stacked Bar Plot" w h x y data cc pal cm edge) =
        Option.some (crosstab data x y) ∧
      plotCt (create_plot known "Heatmap" w h x y data cc pal cm edge) =
        Option.some (crosstab data x y)) := by
  refine ⟨?_, ?_, ?_⟩
  · unfold ctTotal crosstab
    rw [List.map_map]
    have hA : (sortVals (uniqueFirst ((ctKept data x y).map (fun r => getVal r x)))).Nodup :=
      (nodup_sortVals _).mpr (nodup_uniqueAux _ _)
    have hB : (sortVals (uniqueFirst ((ctKept data x y).map (fun r => getVal r y)))).Nodup :=
      (nodup_sortVals _).mpr (nodup_uniqueAux _ _)
    have hmem : ∀ r ∈ ctKept data x y,
        getVal r x ∈ sortVals (uniqueFirst ((ctKept data x y).map (fun r => getVal r x))) ∧
        getVal r y ∈ sortVals (uniqueFirst ((ctKept data x y).map (fun r => getVal r y))) := by
      intro r hr
      constructor
      · rw [mem_sortVals]
        unfold uniqueFirst
        rw [mem_uniqueAux]
        exact ⟨List.mem_map_of_mem _ hr, List.not_mem_nil _⟩
      · rw [mem_sortVals]
        unfold uniqueFirst
        rw [mem_uniqueAux]
        exact ⟨List.mem_map_of_mem _ hr, List.not_mem_nil _⟩
    have := sum_sum_countP_pairs
      (sortVals (uniqueFirst ((ctKept data x y).map (fun r => getVal r x))))
      (sortVals (uniqueFirst ((ctKept data x y).map (fun r => getVal r y))))
      (fun r => getVal r x) (fun r => getVal r y) (ctKept data x y) hA hB hmem
    rw [← this]
    apply congrArg
    apply List.map_congr_left
    intro a _
    rfl
  · intro a b hno
    unfold ctCell
    rw [List.countP_eq_zero]
    intro r hr
    simp only [Bool.and_eq_true, decide_eq_true_eq]
    exact fun hc => hno r hr hc
  · intro known w h cc pal edge cm
    constructor
    · simp [create_plot, plotCt]
    · cases cm with
      | str s =>
        by_cases hs : s ∈ known <;> simp [create_plot, plotCt, hs]
      | nonStr => simp [create_plot, plotCt]

/-- Witness for the amended C1 at a concrete Dataset and axis pair. -/
theorem crosstab_total_c1_witness :
    ctTotal (crosstab dsTwo "gender" "race") = (ctKept dsTwo "gender" "race").length ∧
    ctCell dsTwo "gender" "race" (Value.str "Zed") (Value.str "Zed") = 0 :=
  ⟨(crosstab_total_c1 dsTwo "gender" "race").1,
    (crosstab_total_c1 dsTwo "gender" "race").2.1 (Value.str "Zed") (Value.str "Zed")
      (by decide)⟩

/-! ### Tick thinning -/

theorem enumFrom_filter_map_snd {α : Type} (p : Nat → Bool) (dflt : α) :
    ∀ (l : List α) (s : Nat),
      ((List.enumFrom s l).filter (fun q => p q.1)).map Prod.snd =
        ((List.range l.length).filter (fun i => p (s + i))).map
          (fun i => l.getD i dflt) := by
  intro l
  induction l with
  | nil => intro s; simp
  | cons a t ih =>
    intro s
    rw [List.enumFrom_cons, List.length_cons, List.range_succ_eq_map]
    rw [List.filter_cons, List.filter_cons]
    have htail : (List.filter (fun i => p (s + i)) (List.map Nat.succ (List.range t.length))).map
        (fun i => (a :: t).getD i dflt) =
        ((List.range t.length).filter (fun i => p (s + 1 + i))).map (fun i => t.getD i dflt) := by
      rw [List.filter_map]
      rw [List.map_map]
      have hcong : List.filter ((fun i => p (s + i)) ∘ Nat.succ) (List.range t.length) =
          List.filter (fun i => p (s + 1 + i)) (List.range t.length) := by
        apply List.filter_congr
        intro i _
        simp only [Function.comp_apply]
        have : s + (i + 1) = s + 1 + i := by omega
        rw [Nat.succ_eq_add_one, this]
      rw [hcong]
      apply List.map_congr_left
      intro i _
      simp only [Function.comp_apply, Nat.succ_eq_add_one, List.getD_cons_succ]
    by_cases hp : p s
    · have h0 : p (s + 0) = true := by simpa using hp
      rw [if_pos (by simpa using hp), if_pos h0]
      simp only [List.map_cons, List.getD_cons_zero]
      rw [ih (s + 1), htail]
    · have h0 : ¬ p (s + 0) = true := by simpa using hp
      rw [if_neg (by simpa using hp), if_neg h0]
      rw [ih (s + 1), htail]

theorem thinTicks_eq (skip : Int) (locs : List Int) :
    thinTicks skip locs =
      ((List.range locs.length).filter (fun (i : Nat) => (i : Int) % skip == 0)).map
        (fun i => locs.getD i 0) := by
  unfold thinTicks
  have := enumFrom_filter_map_snd (fun i => ((i : Int) % skip == 0)) 0 locs 0
  simpa [List.enum] using this

/-- C8: with "show all ticks" disabled and skip count greater than one, the
plot callback replaces the integer tick-location list by exactly the
entries at indices divisible by the skip count, starting at index 0; in
particular a 20-entry tick list thinned with skip count 4 keeps exactly 5
positions. -/
theorem tick_thinning_c8 (skip : Int) (locs : List Int) (hskip : 1 < skip) :
    thinTicks skip locs =
      ((List.range locs.length).filter (fun (i : Nat) => (i : Int) % skip == 0)).map
        (fun i => locs.getD i 0) ∧
    (locs.length = 20 → skip = 4 → (thinTicks skip locs).length = 5) ∧
    (∀ (known : List String) (d : Dataset) (x? : Option String) (y : String)
        (a : FilterArgs) (w h : Int) (cc pal : String) (cm : PyObj)
        (bc tilt : Bool) (fs : Int) (axTicks : List Int),
      (filterData d a).isEmpty = false →
      generate_plot known d "Countplot" x? y a w h cc pal cm bc tilt fs
          false skip axTicks =
        PlotOut.figure
          (create_plot known "Countplot" w h (x?.getD "program") y (filterData d a)
            cc "Set1" (PyObj.str "Blues") (if bc then "black" else "none"))
          (thinTicks skip (intTickLocations axTicks)) fs tilt) := by
  refine ⟨thinTicks_eq skip locs, ?_, ?_⟩
  · intro hlen h4
    rw [thinTicks_eq, List.length_map, hlen, h4]
    decide
  · intro known d x? y a w h cc pal cm bc tilt fs axTicks hne
    simp [generate_plot, hne, hskip]

/-- Witness for C8: the 20 integer positions 0..19 thinned with skip count 4
keep exactly 5 positions. -/
theorem tick_thinning_c8_witness :
    (thinTicks 4 (intRange 0 19)).length = 5 :=
  (tick_thinning_c8 4 (intRange 0 19) (by decide)).2.1 (by decide) rfl

/-! ### The remove-while-iterating loop of the table callback -/

theorem removeLoop_oob (x y : String) (fuel i : Nat) (lst : List String)
    (h : lst.length ≤ i) : removeLoop x y fuel i lst = lst := by
  cases fuel with
  | zero => rfl
  | succ fuel => simp [removeLoop, Nat.not_lt.mpr h]

theorem removeLoop_step_hit (x y : String) (fuel i : Nat) (lst : List String)
    (h : i < lst.length) (v : String) (hv : lst.get ⟨i, h⟩ = v)
    (hvxy : v = x ∨ v = y) :
    removeLoop x y (fuel + 1) i lst = removeLoop x y fuel (i + 1) (lst.erase v) := by
  simp only [removeLoop, dif_pos h, hv]
  rcases hvxy with h1 | h1
  · rw [if_pos h1]
  · by_cases hvx : v = x
    · rw [if_pos hvx]
    · rw [if_neg hvx, if_pos h1]

theorem removeLoop_step_miss (x y : String) (fuel i : Nat) (lst : List String)
    (h : i < lst.length) (hx : lst.get ⟨i, h⟩ ≠ x) (hy : lst.get ⟨i, h⟩ ≠ y) :
    removeLoop x y (fuel + 1) i lst = removeLoop x y fuel (i + 1) lst := by
  simp only [removeLoop, dif_pos h]
  rw [if_neg hx, if_neg hy]

theorem removeLoop_skip (x y : String) :
    ∀ (fuel i : Nat) (lst : List String),
      (∀ e ∈ lst.drop i, e ≠ x ∧ e ≠ y) →
      removeLoop x y fuel i lst = lst := by
  intro fuel
  induction fuel with
  | zero => intro i lst _; rfl
  | succ fuel ih =>
    intro i lst hcl
    by_cases h : i < lst.length
    · have hdrop := List.drop_eq_getElem_cons h
      have hitem : lst.get ⟨i, h⟩ ∈ lst.drop i := by
        rw [hdrop, List.get_eq_getElem]
        exact List.mem_cons_self _ _
      have hxy := hcl _ hitem
      rw [removeLoop_step_miss x y fuel i lst h hxy.1 hxy.2]
      apply ih
      intro e he
      apply hcl
      rw [hdrop]
      exact List.mem_cons_of_mem _ he
    · exact removeLoop_oob x y _ i lst (Nat.le_of_not_lt h)

theorem removeLoop_walk (x y : String) :
    ∀ (n fuel i : Nat) (lst : List String),
      (∀ e ∈ (lst.drop i).take n, e ≠ x ∧ e ≠ y) →
      removeLoop x y (n + fuel) i lst = removeLoop x y fuel (i + n) lst := by
  intro n
  induction n with
  | zero => intro fuel i lst _; simp
  | succ n ih =>
    intro fuel i lst hcl
    by_cases h : i < lst.length
    · have hdrop := List.drop_eq_getElem_cons h
      have hitem : lst.get ⟨i, h⟩ ∈ (lst.drop i).take (n + 1) := by
        rw [hdrop, List.take_succ_cons, List.get_eq_getElem]
        exact List.mem_cons_self _ _
      have hxy := hcl _ hitem
      have e1 : n + 1 + fuel = (n + fuel) + 1 := by omega
      rw [e1, removeLoop_step_miss x y (n + fuel) i lst h hxy.1 hxy.2]
      have hrec := ih fuel (i + 1) lst (fun e he => hcl e (by
        rw [hdrop, List.take_succ_cons]
        exact List.mem_cons_of_mem _ he))
      rw [hrec, show i + 1 + n = i + (n + 1) from by omega]
    · rw [removeLoop_oob x y _ i lst (Nat.le_of_not_lt h),
        removeLoop_oob x y fuel (i + (n + 1)) lst (by omega)]

theorem get_append_length {α : Type} (Q : List α) (v : α) (R : List α)
    (h : Q.length < (Q ++ v :: R).length) :
    (Q ++ v :: R).get ⟨Q.length, h⟩ = v := by
  rw [List.get_eq_getElem, List.getElem_append_right (le_refl Q.length)]
  simp

theorem removeLoop_clean_then_hit (x y v : String) (hv : v = x ∨ v = y)
    (Q R : List String) (i fuel : Nat) (hi : i ≤ Q.length)
    (hQ : ∀ e ∈ Q.drop i, e ≠ x ∧ e ≠ y) (hvQ : v ∉ Q) :
    removeLoop x y ((Q.length - i) + (fuel + 1)) i (Q ++ v :: R) =
      removeLoop x y fuel (Q.length + 1) (Q ++ R) := by
  have hwin : ∀ e ∈ ((Q ++ v :: R).drop i).take (Q.length - i), e ≠ x ∧ e ≠ y := by
    intro e he
    apply hQ
    rw [List.drop_append_of_le_length hi,
      List.take_left' (by rw [List.length_drop])] at he
    exact he
  rw [removeLoop_walk x y (Q.length - i) (fuel + 1) i (Q ++ v :: R) hwin,
    show i + (Q.length - i) = Q.length from by omega]
  have hlt : Q.length < (Q ++ v :: R).length := by simp
  rw [removeLoop_step_hit x y fuel Q.length (Q ++ v :: R) hlt v
    (get_append_length Q v R hlt) hv]
  rw [List.erase_append_right (v :: R) hvQ, List.erase_cons_head]

theorem removeChosen_adj (x y : String) (P S : List String)
    (hP : ∀ e ∈ P, e ≠ x ∧ e ≠ y) (hS : ∀ e ∈ S, e ≠ x ∧ e ≠ y) :
    removeChosen x y (P ++ x :: y :: S) = P ++ y :: S := by
  unfold removeChosen
  have hlen : (P ++ x :: y :: S).length = (P.length - 0) + ((S.length + 1) + 1) := by
    simp only [List.length_append, List.length_cons]
    omega
  rw [hlen, removeLoop_clean_then_hit x y x (Or.inl rfl) P (y :: S) 0 (S.length + 1)
    (Nat.zero_le _) (by simpa using hP) (fun hx => (hP x hx).1 rfl)]
  apply removeLoop_skip
  intro e he
  rw [show P ++ y :: S = (P ++ [y]) ++ S from by simp,
    List.drop_left' (by simp)] at he
  exact hS e he

theorem removeChosen_adj_rev (x y : String) (P S : List String)
    (hP : ∀ e ∈ P, e ≠ x ∧ e ≠ y) (hS : ∀ e ∈ S, e ≠ x ∧ e ≠ y) :
    removeChosen x y (P ++ y :: x :: S) = P ++ x :: S := by
  unfold removeChosen
  have hlen : (P ++ y :: x :: S).length = (P.length - 0) + ((S.length + 1) + 1) := by
    simp only [List.length_append, List.length_cons]
    omega
  rw [hlen, removeLoop_clean_then_hit x y y (Or.inr rfl) P (x :: S) 0 (S.length + 1)
    (Nat.zero_le _) (by simpa using hP) (fun hy => (hP y hy).2 rfl)]
  apply removeLoop_skip
  intro e he
  rw [show P ++ x :: S = (P ++ [x]) ++ S from by simp,
    List.drop_left' (by simp)] at he
  exact hS e he

theorem removeChosen_split (x y : String) (P : List String) (m : String)
    (M S : List String) (hP : ∀ e ∈ P, e ≠ x ∧ e ≠ y) (hm : m ≠ x ∧ m ≠ y)
    (hM : ∀ e ∈ M, e ≠ x ∧ e ≠ y) (hS : ∀ e ∈ S, e ≠ x ∧ e ≠ y) :
    removeChosen x y (P ++ x :: (m :: M ++ y :: S)) = P ++ (m :: M ++ S) := by
  unfold removeChosen
  have hlen : (P ++ x :: (m :: M ++ y :: S)).length =
      (P.length - 0) + ((M.length + S.length + 2) + 1) := by
    simp only [List.length_append, List.length_cons]
    omega
  rw [hlen, removeLoop_clean_then_hit x y x (Or.inl rfl) P (m :: M ++ y :: S) 0
    (M.length + S.length + 2) (Nat.zero_le _) (by simpa using hP)
    (fun hx => (hP x hx).1 rfl)]
  rw [show P ++ (m :: M ++ y :: S) = (P ++ m :: M) ++ y :: S from by simp]
  rw [show M.length + S.length + 2 =
    ((P ++ m :: M).length - (P.length + 1)) + ((S.length + 1) + 1) from by
      simp only [List.length_append, List.length_cons]
      omega]
  rw [removeLoop_clean_then_hit x y y (Or.inr rfl) (P ++ m :: M) S (P.length + 1)
    (S.length + 1) (by simp) ?hQ2 ?hvQ2]
  case hQ2 =>
    intro e he
    rw [show P ++ m :: M = (P ++ [m]) ++ M from by simp,
      List.drop_left' (by simp)] at he
    exact hM e he
  case hvQ2 =>
    intro hy
    rcases List.mem_append.mp hy with h1 | h1
    · exact (hP y h1).2 rfl
    · rcases List.mem_cons.mp h1 with h2 | h2
      · exact hm.2 h2.symm
      · exact (hM y h2).2 rfl
  rw [removeLoop_skip x y (S.length + 1) ((P ++ m :: M).length + 1) ((P ++ m :: M) ++ S)
    ?hskip]
  case hskip =>
    intro e he
    rw [show (P ++ m :: M).length + 1 = (P ++ m :: M).length + 1 from rfl,
      List.drop_append 1] at he
    exact hS e (List.drop_subset 1 S he)
  rw [List.append_assoc]

theorem removeChosen_split_rev (x y : String) (P : List String) (m : String)
    (M S : List String) (hP : ∀ e ∈ P, e ≠ x ∧ e ≠ y) (hm : m ≠ x ∧ m ≠ y)
    (hM : ∀ e ∈ M, e ≠ x ∧ e ≠ y) (hS : ∀ e ∈ S, e ≠ x ∧ e ≠ y) :
    removeChosen x y (P ++ y :: (m :: M ++ x :: S)) = P ++ (m :: M ++ S) := by
  unfold removeChosen
  have hlen : (P ++ y :: (m :: M ++ x :: S)).length =
      (P.length - 0) + ((M.length + S.length + 2) + 1) := by
    simp only [List.length_append, List.length_cons]
    omega
  rw [hlen, removeLoop_clean_then_hit x y y (Or.inr rfl) P (m :: M ++ x :: S) 0
    (M.length + S.length + 2) (Nat.zero_le _) (by simpa using hP)
    (fun hy => (hP y hy).2 rfl)]
  rw [show P ++ (m :: M ++ x :: S) = (P ++ m :: M) ++ x :: S from by simp]
  rw [show M.length + S.length + 2 =
    ((P ++ m :: M).length - (P.length + 1)) + ((S.length + 1) + 1) from by
      simp only [List.length_append, List.length_cons]
      omega]
  rw [removeLoop_clean_then_hit x y x (Or.inl rfl) (P ++ m :: M) S (P.length + 1)
    (S.length + 1) (by simp) ?hQ2 ?hvQ2]
  case hQ2 =>
    intro e he
    rw [show P ++ m :: M = (P ++ [m]) ++ M from by simp,
      List.drop_left' (by simp)] at he
    exact hM e he
  case hvQ2 =>
    intro hx
    rcases List.mem_append.mp hx with h1 | h1
    · exact (hP x h1).1 rfl
    · rcases List.mem_cons.mp h1 with h2 | h2
      · exact hm.1 h2.symm
      · exact (hM x h2).1 rfl
  rw [removeLoop_skip x y (S.length + 1) ((P ++ m :: M).length + 1) ((P ++ m :: M) ++ S)
    ?hskip]
  case hskip =>
    intro e he
    rw [List.drop_append 1] at he
    exact hS e (List.drop_subset 1 S he)
  rw [List.append_assoc]

theorem count_clean (v : String) {L : List String} (h : ∀ e ∈ L, e ≠ v) :
    List.count v L = 0 :=
  List.count_eq_zero.mpr (fun hv => h v hv rfl)

theorem tableCols_generate_table (d : Dataset) (x y : String) (a : FilterArgs)
    (hne : (filterData d a).isEmpty = false)
    (hac : (removeChosen x y additionalColumns).isEmpty = false) :
    tableCols (generate_table d x y a true) =
      [x, y] ++ removeChosen x y additionalColumns := by
  simp [generate_table, hne, hac, tableCols]

/-- Counterexample to C10 as stated: choosing as x-axis the allow-list entry
immediately following the y-axis selection (the reversed adjacency, an
"other case" in the claim) leaves the x entry unremoved, so the table
carries the x column twice instead of having both chosen entries removed. -/
theorem table_remove_c10_counterexample :
    List.count colSameLocation
      (tableCols (generate_table dsTwo colSameLocation colProgram noFilters true)) =
      2 := by
  decide

/-- C10 corrected: the loop removes list items while iterating over the same
list, so whenever either chosen selection is the allow-list entry immediately
following the other, the later entry of the pair is skipped and survives and
the resulting table carries that column twice; when the two selections are
distinct non-adjacent allow-list entries, both are removed and each chosen
column appears exactly once. -/
theorem table_remove_loop_c10 (d : Dataset) (a : FilterArgs) (x y : String)
    (hne : (filterData d a).isEmpty = false) (hxy : x ≠ y) :
    (∀ P S, additionalColumns = P ++ x :: y :: S →
      (∀ e ∈ P, e ≠ x ∧ e ≠ y) → (∀ e ∈ S, e ≠ x ∧ e ≠ y) →
      List.count y (tableCols (generate_table d x y a true)) = 2 ∧
      List.count x (tableCols (generate_table d x y a true)) = 1) ∧
    (∀ P S, additionalColumns = P ++ y :: x :: S →
      (∀ e ∈ P, e ≠ x ∧ e ≠ y) → (∀ e ∈ S, e ≠ x ∧ e ≠ y) →
      List.count x (tableCols (generate_table d x y a true)) = 2 ∧
      List.count y (tableCols (generate_table d x y a true)) = 1) ∧
    (∀ P m M S, additionalColumns = P ++ x :: (m :: M ++ y :: S) →
      (∀ e ∈ P, e ≠ x ∧ e ≠ y) → (m ≠ x ∧ m ≠ y) →
      (∀ e ∈ M, e ≠ x ∧ e ≠ y) → (∀ e ∈ S, e ≠ x ∧ e ≠ y) →
      List.count x (tableCols (generate_table d x y a true)) = 1 ∧
      List.count y (tableCols (generate_table d x y a true)) = 1) ∧
    (∀ P m M S, additionalColumns = P ++ y :: (m :: M ++ x :: S) →
      (∀ e ∈ P, e ≠ x ∧ e ≠ y) → (m ≠ x ∧ m ≠ y) →
      (∀ e ∈ M, e ≠ x ∧ e ≠ y) → (∀ e ∈ S, e ≠ x ∧ e ≠ y) →
      List.count x (tableCols (generate_table d x y a true)) = 1 ∧
      List.count y (tableCols (generate_table d x y a true)) = 1) := by
  have hyx : y ≠ x := Ne.symm hxy
  refine ⟨?_, ?_, ?_, ?_⟩
  · intro P S hadd hP hS
    have hrm : removeChosen x y additionalColumns = P ++ y :: S := by
      rw [hadd]
      exact removeChosen_adj x y P S hP hS
    have hac : (removeChosen x y additionalColumns).isEmpty = false := by
      rw [hrm]
      cases P <;> rfl
    rw [tableCols_generate_table d x y a hne hac, hrm]
    have hyP : List.count y P = 0 := count_clean y (fun e he => (hP e he).2)
    have hyS : List.count y S = 0 := count_clean y (fun e he => (hS e he).2)
    have hxP : List.count x P = 0 := count_clean x (fun e he => (hP e he).1)
    have hxS : List.count x S = 0 := count_clean x (fun e he => (hS e he).1)
    constructor
    · simp [List.count_append, List.count_cons, hyP, hyS, hxy]
    · simp [List.count_append, List.count_cons, hxP, hxS, hyx]
  · intro P S hadd hP hS
    have hrm : removeChosen x y additionalColumns = P ++ x :: S := by
      rw [hadd]
      exact removeChosen_adj_rev x y P S hP hS
    have hac : (removeChosen x y additionalColumns).isEmpty = false := by
      rw [hrm]
      cases P <;> rfl
    rw [tableCols_generate_table d x y a hne hac, hrm]
    have hyP : List.count y P = 0 := count_clean y (fun e he => (hP e he).2)
    have hyS : List.count y S = 0 := count_clean y (fun e he => (hS e he).2)
    have hxP : List.count x P = 0 := count_clean x (fun e he => (hP e he).1)
    have hxS : List.count x S = 0 := count_clean x (fun e he => (hS e he).1)
    constructor
    · simp [List.count_append, List.count_cons, hxP, hxS, hyx]
    · simp [List.count_append, List.count_cons, hyP, hyS, hxy]
  · intro P m M S hadd hP hm hM hS
    have hrm : removeChosen x y additionalColumns = P ++ (m :: M ++ S) := by
      rw [hadd]
      exact removeChosen_split x y P m M S hP hm hM hS
    have hac : (removeChosen x y additionalColumns).isEmpty = false := by
      rw [hrm]
      cases P <;> rfl
    rw [tableCols_generate_table d x y a hne hac, hrm]
    have hyP : List.count y P = 0 := count_clean y (fun e he => (hP e he).2)
    have hyS : List.count y S = 0 := count_clean y (fun e he => (hS e he).2)
    have hxP : List.count x P = 0 := count_clean x (fun e he => (hP e he).1)
    have hxS : List.count x S = 0 := count_clean x (fun e he => (hS e he).1)
    have hyM : List.count y M = 0 := count_clean y (fun e he => (hM e he).2)
    have hxM : List.count x M = 0 := count_clean x (fun e he => (hM e he).1)
    constructor
    · simp [List.count_append, List.count_cons, hxP, hxS, hxM, hyx, hm.1]
    · simp [List.count_append, List.count_cons, hyP, hyS, hyM, hxy, hm.2]
  · intro P m M S hadd hP hm hM hS
    have hrm : removeChosen x y additionalColumns = P ++ (m :: M ++ S) := by
      rw [hadd]
      exact removeChosen_split_rev x y P m M S hP hm hM hS
    have hac : (removeChosen x y additionalColumns).isEmpty = false := by
      rw [hrm]
      cases P <;> rfl
    rw [tableCols_generate_table d x y a hne hac, hrm]
    have hyP : List.count y P = 0 := count_clean y (fun e he => (hP e he).2)
    have hyS : List.count y S = 0 := count_clean y (fun e he => (hS e he).2)
    have hxP : List.count x P = 0 := count_clean x (fun e he => (hP e he).1)
    have hxS : List.count x S = 0 := count_clean x (fun e he => (hS e he).1)
    have hyM : List.count y M = 0 := count_clean y (fun e he => (hM e he).2)
    have hxM : List.count x M = 0 := count_clean x (fun e he => (hM e he).1)
    constructor
    · simp [List.count_append, List.count_cons, hxP, hxS, hxM, hyx, hm.1]
    · simp [List.count_append, List.count_cons, hyP, hyS, hyM, hxy, hm.2]

/-- Witness for the corrected C10: with the y-axis set to the first
allow-list entry and the x-axis to the entry immediately following it, the
x column survives the loop and appears twice in the table while the y
column appears once. -/
theorem table_remove_loop_c10_witness :
    List.count colSameLocation
      (tableCols (generate_table dsTwo colSameLocation colProgram noFilters true)) = 2 ∧
    List.count colProgram
      (tableCols (generate_table dsTwo colSameLocation colProgram noFilters true)) = 1 :=
  (table_remove_loop_c10 dsTwo noFilters colSameLocation colProgram
      (by decide) (by decide)).2.1 [] (additionalColumns.drop 2) rfl
    (fun e he => absurd he (List.not_mem_nil e)) (by decide)

end SYEP
